import Mathlib

/-!
Verification of the aggregation and presentation pipeline of the Netflix
dashboard (src/dashboard.py) against its natural-language specification.

The embedding is shallow: each pandas/SQL operation used by the dashboard is
translated to a Lean function on lists.  Column values that may be SQL NULL /
pandas NaN are carried as Option values.  The pandas primitives modelled here:

* Series.value_counts()  (default dropna=True, result sorted by count
  descending, tie order incidental): valueCounts below.  Null entries are
  removed by the caller through filterMap, matching value_counts dropping NaN.
* Series.nlargest(k) on a counts table: stable sort by count descending, then
  take k: nlargest below.
* DataFrame.sort_values / sort_index on a column with pairwise-distinct keys:
  insertionSort by the key (any correct sort gives the same list because the
  keys are distinct).
* DataFrame.tail(n): tailN below.
* pd.merge(..., how='inner') on an id column: flatMap over the left rows of
  the matching right rows (left row order preserved, as pandas does).
* pd.merge(left, counts, how='left') against a distinct-key universe followed
  by fillna(0): map over the universe with a lookup defaulting to 0.
-/

namespace Dashboard

/-- Grouped counts of a list, one pair per distinct value (order of first
grouping is incidental, as is pandas' tie order). -/
def countsBy {α : Type} [DecidableEq α] (xs : List α) : List (α × Nat) :=
  xs.dedup.map (fun v => (v, xs.count v))

/-- Comparison used by value_counts / nlargest: count descending. -/
def descCount {α : Type} (p q : α × Nat) : Prop := q.2 ≤ p.2

instance {α : Type} : DecidableRel (@descCount α) :=
  fun p q => inferInstanceAs (Decidable (q.2 ≤ p.2))

instance {α : Type} : IsTotal (α × Nat) descCount :=
  ⟨fun p q => Nat.le_total q.2 p.2⟩

instance {α : Type} : IsTrans (α × Nat) descCount :=
  ⟨fun _ _ _ h1 h2 => Nat.le_trans h2 h1⟩

/-- Model of pandas Series.value_counts(): grouped counts sorted by count
descending. -/
def valueCounts {α : Type} [DecidableEq α] (xs : List α) : List (α × Nat) :=
  (countsBy xs).insertionSort descCount

/-- Model of Series.nlargest(k) on a counts table. -/
def nlargest {α : Type} (k : Nat) (l : List (α × Nat)) : List (α × Nat) :=
  (l.insertionSort descCount).take k

/-- Model of DataFrame.tail(n): the last n rows. -/
def tailN {α : Type} (n : Nat) (l : List α) : List α :=
  l.drop (l.length - n)

/-! ### Shared lemmas about the primitives -/

theorem mem_countsBy {α : Type} [DecidableEq α] {xs : List α} {p : α × Nat}
    (h : p ∈ countsBy xs) : p.1 ∈ xs ∧ p.2 = xs.count p.1 := by
  rcases List.mem_map.1 h with ⟨v, hv, rfl⟩
  exact ⟨List.mem_dedup.1 hv, rfl⟩

theorem mem_valueCounts {α : Type} [DecidableEq α] {xs : List α} {p : α × Nat}
    (h : p ∈ valueCounts xs) : p.1 ∈ xs ∧ p.2 = xs.count p.1 :=
  mem_countsBy ((List.perm_insertionSort descCount (countsBy xs)).mem_iff.1 h)

theorem keys_countsBy {α : Type} [DecidableEq α] (xs : List α) :
    (countsBy xs).map Prod.fst = xs.dedup := by
  simp only [countsBy, List.map_map]
  exact List.map_id _

theorem nodup_keys_countsBy {α : Type} [DecidableEq α] (xs : List α) :
    ((countsBy xs).map Prod.fst).Nodup := by
  rw [keys_countsBy]; exact List.nodup_dedup xs

theorem sum_counts_valueCounts {α : Type} [DecidableEq α] (xs : List α) :
    ((valueCounts xs).map Prod.snd).sum = xs.length := by
  have hperm : (valueCounts xs).Perm (countsBy xs) :=
    List.perm_insertionSort descCount (countsBy xs)
  have h1 : ((valueCounts xs).map Prod.snd).sum = ((countsBy xs).map Prod.snd).sum :=
    (hperm.map Prod.snd).sum_eq
  rw [h1]
  have h2 : (countsBy xs).map Prod.snd = xs.dedup.map (fun v => xs.count v) := by
    simp [countsBy, List.map_map, Function.comp]
  rw [h2]
  exact List.sum_map_count_dedup_eq_length xs

theorem lookup_eq_some_of_mem {α β : Type} [DecidableEq α]
    {l : List (α × β)} (hk : (l.map Prod.fst).Nodup) {a : α} {b : β}
    (h : (a, b) ∈ l) : l.lookup a = some b := by
  induction l with
  | nil => cases h
  | cons hd tl ih =>
    obtain ⟨k, v⟩ := hd
    rcases List.mem_cons.1 h with heq | hmem
    · cases heq
      simp [List.lookup_cons]
    · have hk' : (tl.map Prod.fst).Nodup := (List.nodup_cons.1 hk).2
      have hane : a ≠ k := by
        rintro rfl
        exact (List.nodup_cons.1 hk).1 (List.mem_map.2 ⟨(a, b), hmem, rfl⟩)
      have hbeq : (a == k) = false := beq_eq_false_iff_ne.mpr hane
      simp [List.lookup_cons, hbeq, ih hk' hmem]

theorem mem_of_lookup_eq_some {α β : Type} [DecidableEq α]
    {l : List (α × β)} {a : α} {b : β}
    (h : l.lookup a = some b) : (a, b) ∈ l := by
  induction l with
  | nil => simp [List.lookup] at h
  | cons hd tl ih =>
    obtain ⟨k, v⟩ := hd
    by_cases hak : a = k
    · subst hak
      simp [List.lookup_cons] at h
      subst h
      exact List.mem_cons_self _ _
    · have hbeq : (a == k) = false := beq_eq_false_iff_ne.mpr hak
      simp [List.lookup_cons, hbeq] at h
      exact List.mem_cons_of_mem _ (ih h)

theorem lookup_eq_none_of_not_mem {α β : Type} [DecidableEq α]
    {l : List (α × β)} {a : α}
    (h : a ∉ l.map Prod.fst) : l.lookup a = none := by
  induction l with
  | nil => rfl
  | cons hd tl ih =>
    obtain ⟨k, v⟩ := hd
    simp only [List.map_cons, List.mem_cons] at h
    push_neg at h
    have hbeq : (a == k) = false := beq_eq_false_iff_ne.mpr h.1
    simp [List.lookup_cons, hbeq, ih h.2]

/-- `lookup` is invariant under permutation when the keys are distinct. -/
theorem lookup_perm {α β : Type} [DecidableEq α]
    {l l' : List (α × β)} (hp : l.Perm l')
    (hk : (l.map Prod.fst).Nodup) (a : α) : l.lookup a = l'.lookup a := by
  have hk' : (l'.map Prod.fst).Nodup := ((hp.map Prod.fst).nodup_iff).1 hk
  cases hcase : l'.lookup a with
  | none =>
    apply lookup_eq_none_of_not_mem
    intro hmem
    rcases List.mem_map.1 hmem with ⟨⟨k, v⟩, hkv, hfst⟩
    have hk_eq : k = a := hfst
    subst hk_eq
    have hsome : l'.lookup k = some v :=
      lookup_eq_some_of_mem hk' (hp.mem_iff.1 hkv)
    rw [hcase] at hsome
    cases hsome
  | some b =>
    exact lookup_eq_some_of_mem hk (hp.mem_iff.2 (mem_of_lookup_eq_some hcase))

theorem lookup_map_fn {α β : Type} [DecidableEq α]
    (ks : List α) (f : α → β) (a : α) (hk : ks.Nodup) :
    (ks.map (fun v => (v, f v))).lookup a =
      if a ∈ ks then some (f a) else none := by
  induction ks with
  | nil => simp [List.lookup]
  | cons k tl ih =>
    by_cases hak : a = k
    · subst hak
      simp [List.lookup_cons]
    · have hbeq : (a == k) = false := beq_eq_false_iff_ne.mpr hak
      have := ih (List.nodup_cons.1 hk).2
      simp [List.lookup_cons, hbeq, this, hak]

/-- Looking up a value in a value_counts table gives its multiplicity. -/
theorem lookup_valueCounts {α : Type} [DecidableEq α] (xs : List α) (a : α) :
    (valueCounts xs).lookup a = if a ∈ xs then some (xs.count a) else none := by
  have hperm : (countsBy xs).Perm (valueCounts xs) :=
    (List.perm_insertionSort descCount (countsBy xs)).symm
  rw [← lookup_perm hperm (nodup_keys_countsBy xs) a]
  rw [countsBy, lookup_map_fn xs.dedup (fun v => xs.count v) a (List.nodup_dedup xs)]
  simp [List.mem_dedup]

/-! ### Query executor (run_query, src/dashboard.py lines 61-75) -/

/-- A materialized query result: named columns and ordered rows. -/
structure DF where
  cols : List String
  rows : List (List String)
deriving DecidableEq

def emptyDF : DF := ⟨[], []⟩

/-- Shallow embedding of run_query: the outcome of pd.read_sql_query is passed
in as an Except value (ok = the materialized frame, error = the raised
exception's message).  The try/except of the source catches every exception,
emits the two st.error diagnostics, and returns pd.DataFrame() — the empty
frame with no rows and no columns. -/
def run_query (res : Except String DF) (query : String) : DF × List String :=
  match res with
  | Except.ok df => (df, [])
  | Except.error e =>
      (emptyDF,
       ["Error al ejecutar la consulta: " ++ query,
        "Detalles del error: " ++ e])

/-! ### Rows of the fact table as loaded by query_shows (line 195) -/

structure ShowRow where
  show_id : Int
  type : Option String
  title : String
  director_id : Option Int
  release_year : Option Int
  rating : Option String
  duration : Option String
  month_added : Option Int
deriving DecidableEq

/-! ### Type distribution (lines 218-224) -/

/-- df_shows['type'].value_counts(): value_counts drops NaN entries, so rows
whose type is null contribute to no category. -/
def type_counts (types : List (Option String)) : List (String × Nat) :=
  valueCounts (types.filterMap id)

/-! ### Releases by year (lines 227-239) -/

/-- Sort comparison of sort_index on the year column. -/
def yearLE (p q : Int × Nat) : Prop := p.1 ≤ q.1

instance : DecidableRel yearLE :=
  fun p q => inferInstanceAs (Decidable (p.1 ≤ q.1))

instance : IsTotal (Int × Nat) yearLE :=
  ⟨fun p q => Int.le_total p.1 q.1⟩

instance : IsTrans (Int × Nat) yearLE :=
  ⟨fun _ _ _ h1 h2 => Int.le_trans h1 h2⟩

/-- dropna(subset=['release_year']); astype(int) (the identity here, years
being carried as integers); value_counts(); sort_index(). -/
def release_year_counts (ys : List (Option Int)) : List (Int × Nat) :=
  (valueCounts (ys.filterMap id)).insertionSort yearLE

/-- release_year_counts.tail(30). -/
def latest_years_count (ys : List (Option Int)) : List (Int × Nat) :=
  tailN 30 (release_year_counts ys)

/-! ### Rating distribution (lines 246-252) -/

/-- dropna(subset=['rating']); value_counts().nlargest(10). -/
def rating_counts (ratings : List (Option String)) : List (String × Nat) :=
  nlargest 10 (valueCounts (ratings.filterMap id))

/-! ### Additions by month (lines 258-281) -/

/-- The fixed 12-month universe month_map of the source, in calendar order. -/
def month_names : List String :=
  ["Ene", "Feb", "Mar", "Abr", "May", "Jun",
   "Jul", "Ago", "Sep", "Oct", "Nov", "Dic"]

/-- The dict month_map: months 1..12 map to their abbreviation; .map gives
NaN (none) for any other value. -/
def month_map (m : Int) : Option String :=
  if 1 ≤ m ∧ m ≤ 12 then month_names[(m - 1).toNat]? else none

/-- month_order_map: position of a month name in the canonical order. -/
def month_order (nm : String) : Nat := month_names.indexOf nm

/-- Sort comparison of sort_values('month_order'). -/
def monthLE (p q : String × Nat) : Prop := month_order p.1 ≤ month_order q.1

instance : DecidableRel monthLE :=
  fun p q => inferInstanceAs (Decidable (month_order p.1 ≤ month_order q.1))

/-- The full month pipeline: dropna(subset=['month_added']);
astype(int).map(month_map) (out-of-range months become NaN and are then
dropped by value_counts); value_counts(); left-merge against the fixed
12-month universe with fillna(0); sort_values('month_order'). -/
def month_added_counts (months : List (Option Int)) : List (String × Nat) :=
  let names := (months.filterMap id).filterMap month_map
  let vc := valueCounts names
  let merged := month_names.map (fun nm => (nm, (vc.lookup nm).getD 0))
  merged.insertionSort monthLE

/-! ### Top directors (lines 286-293) -/

/-- Python str.lower() on the ASCII range, applied characterwise. -/
def lowerStr (s : String) : List Char := s.toList.map Char.toLower

/-- pd.merge(df_shows, df_directors, on='director_id', how='inner'), keeping
the director_name column: left row order is preserved and every matching
right row contributes one joined row; shows whose director_id has no match
(or is null) are dropped. -/
def shows_with_directors (shows : List ShowRow) (directors : List (Int × String)) :
    List String :=
  shows.flatMap (fun r =>
    match r.director_id with
    | none => []
    | some d => (directors.filter (fun p => p.1 == d)).map Prod.snd)

/-- Filter of rows whose director_name lower-cases to "unknown". -/
def df_filtered_directors (shows : List ShowRow) (directors : List (Int × String)) :
    List String :=
  (shows_with_directors shows directors).filter
    (fun nm => !(lowerStr nm == "unknown".toList))

/-- value_counts().nlargest(10) over the filtered director names. -/
def director_counts (shows : List ShowRow) (directors : List (Int × String)) :
    List (String × Nat) :=
  nlargest 10 (valueCounts (df_filtered_directors shows directors))

/-! ### Bridge-table aggregations (lines 305-346) -/

/-- pd.merge(bridge, dim, on=id, how='inner') keeping the name column. -/
def joined_names (bridge : List (Int × Int)) (dim : List (Int × String)) :
    List String :=
  bridge.flatMap (fun b => (dim.filter (fun p => p.1 == b.2)).map Prod.snd)

/-- Top-10 cast members: join show_cast_members to cast_members, then
value_counts().nlargest(10). -/
def cast_counts (bridge : List (Int × Int)) (dim : List (Int × String)) :
    List (String × Nat) :=
  nlargest 10 (valueCounts (joined_names bridge dim))

/-- Top-10 countries: same pipeline over show_countries × countries. -/
def country_counts (bridge : List (Int × Int)) (dim : List (Int × String)) :
    List (String × Nat) :=
  nlargest 10 (valueCounts (joined_names bridge dim))

/-- Top-10 genres: same pipeline over show_genres × genres. -/
def genre_counts (bridge : List (Int × Int)) (dim : List (Int × String)) :
    List (String × Nat) :=
  nlargest 10 (valueCounts (joined_names bridge dim))

/-! ### The Analytics View's rendering skeleton (lines 191-354) -/

/-- What a slot of the analytics page shows: a chart, or the informational
st.warning placeholder rendered in its place. -/
inductive RenderItem where
  | chart (name : String)
  | placeholder (name : String)
deriving DecidableEq

/-- The eight query results the view loads (lines 195-214), one list per
dataframe, with only the columns each aggregation consumes. -/
structure AnalyticsData where
  shows : List ShowRow
  directors : List (Int × String)
  show_cast : List (Int × Int)
  cast_members : List (Int × String)
  show_countries : List (Int × Int)
  countries : List (Int × String)
  show_genres : List (Int × Int)
  genres : List (Int × String)
deriving DecidableEq

/-- The guard structure of the Analytics View.  The whole eight-aggregation
block sits under the single `if not df_shows.empty:` at line 217; its else
branch renders one warning.  Inside the block, each aggregation renders a
chart or a warning according to its own guard (the rating and month_added
column-existence checks are always true here because query_shows selects
those columns). -/
def analytics_view (d : AnalyticsData) : List RenderItem :=
  if d.shows.isEmpty then [RenderItem.placeholder "shows"]
  else
    [RenderItem.chart "type",
     (if (d.shows.filterMap ShowRow.release_year).isEmpty then
        RenderItem.placeholder "release_year"
      else RenderItem.chart "release_year"),
     (if (d.shows.filterMap ShowRow.rating).isEmpty then
        RenderItem.placeholder "rating"
      else RenderItem.chart "rating"),
     (if (d.shows.filterMap ShowRow.month_added).isEmpty then
        RenderItem.placeholder "month_added"
      else RenderItem.chart "month_added"),
     (if d.directors.isEmpty then RenderItem.placeholder "directors"
      else if (df_filtered_directors d.shows d.directors).isEmpty then
        RenderItem.placeholder "directors"
      else RenderItem.chart "directors"),
     (if d.show_cast.isEmpty || d.cast_members.isEmpty then
        RenderItem.placeholder "cast"
      else RenderItem.chart "cast"),
     (if d.show_countries.isEmpty || d.countries.isEmpty then
        RenderItem.placeholder "countries"
      else RenderItem.chart "countries"),
     (if d.show_genres.isEmpty || d.genres.isEmpty then
        RenderItem.placeholder "genres"
      else RenderItem.chart "genres")]

/-! ### Search View (lines 356-369)

The query is `SELECT ... FROM shows WHERE title ILIKE %s` with the single
positional parameter `'%' + search_term + '%'`.  Because the term is bound as
a parameter, the SQL text is fixed; the term only ever reaches the engine as
the ILIKE pattern operand.  likeMatch below embeds PostgreSQL LIKE pattern
matching: `%` matches any sequence, `_` any single character, and a backslash
escapes the following character. -/

def likeMatch : List Char → List Char → Bool
  | [], s => s.isEmpty
  | c :: ps, s =>
    if c = '%' then s.tails.any (fun t => likeMatch ps t)
    else if c = '\\' then
      match ps, s with
      | p2 :: ps2, d :: s2 => p2 == d && likeMatch ps2 s2
      | _, _ => false
    else if c = '_' then
      match s with
      | _ :: s2 => likeMatch ps s2
      | [] => false
    else
      match s with
      | d :: s2 => c == d && likeMatch ps s2
      | [] => false

/-- ILIKE: LIKE on the lower-cased pattern and string. -/
def ilike (s pat : List Char) : Bool :=
  likeMatch (pat.map Char.toLower) (s.map Char.toLower)

/-- The rows returned by query_search for a given term: the WHERE clause
keeps exactly the titles matching the wildcard-wrapped pattern. -/
def query_search (titles : List String) (term : String) : List String :=
  titles.filter (fun t => ilike t.toList ('%' :: term.toList ++ ['%']))

/-! ### Home view quick stat (lines 140-157) -/

/-- A row of the fact table as the home-view query sees it. -/
structure FactRow where
  show_id : Int
  type : String
  title : String
  year_added : Option Int
deriving DecidableEq

/-- SELECT type, COUNT(*) FROM shows WHERE year_added = %s GROUP BY type
(group order incidental; a NULL year_added never equals the parameter). -/
def query_year_added (shows : List FactRow) (y : Int) : List (String × Nat) :=
  countsBy ((shows.filter (fun r => r.year_added == some y)).map FactRow.type)

/-- The localized label of a type value; unknown values pass through. -/
def tipoLabel (t : String) : String :=
  if t = "Movie" then "Películas"
  else if t = "TV Show" then "Series de TV"
  else t

/-- The st.success message built by the row loop. -/
def year_added_message (df : List (String × Nat)) (y : Int) : String :=
  df.foldl
    (fun msg p => msg ++ "- " ++ toString p.2 ++ " " ++ tipoLabel p.1 ++ "\n")
    ("En el año " ++ toString y ++ " se añadieron:\n")

/-- What the confirmed quick-stat query renders. -/
inductive HomeRender where
  | success (msg : String)
  | info (msg : String)
deriving DecidableEq

/-- The branch after the button press: a summary on a non-empty grouped
count, the informational message otherwise. -/
def year_added_view (shows : List FactRow) (y : Int) : HomeRender :=
  let df := query_year_added shows y
  if df.isEmpty then
    HomeRender.info ("No se encontraron títulos añadidos en el año " ++ toString y ++ ".")
  else
    HomeRender.success (year_added_message df y)

/-! ### LIKE-literal terms (no pattern metacharacters) -/

/-- A character list that LIKE treats literally: no wildcard and no escape. -/
def isLit (cs : List Char) : Prop := ∀ c ∈ cs, c ≠ '%' ∧ c ≠ '\\' ∧ c ≠ '_'

instance (cs : List Char) : Decidable (isLit cs) :=
  inferInstanceAs (Decidable (∀ c ∈ cs, c ≠ '%' ∧ c ≠ '\\' ∧ c ≠ '_'))

/-! ### Concrete data of the end-to-end scenarios -/

/-- The three-row fact table of the end-to-end scenario of claim C9. -/
def demo_fact_rows : List FactRow :=
  [⟨1, "Movie", "A", some 2020⟩,
   ⟨2, "TV Show", "B", some 2020⟩,
   ⟨3, "Movie", "C", some 2019⟩]

/-- Witness fact table of the 35-distinct-years end-to-end scenario. -/
def demo_years : List (Option Int) :=
  (List.range 35).map (fun i => some (1986 + (i : Int)))

/-- Director bridge of the mixed-case end-to-end scenario. -/
def demo_shows : List ShowRow :=
  [⟨1, some "Movie", "A", some 1, none, none, none, none⟩,
   ⟨2, some "Movie", "B", some 2, none, none, none, none⟩,
   ⟨3, some "Movie", "C", some 3, none, none, none, none⟩,
   ⟨4, some "Movie", "D", some 4, none, none, none, none⟩]

def demo_directors : List (Int × String) :=
  [(1, "Unknown"), (2, "unknown"), (3, "UNKNOWN"), (4, "Ana")]

/-- Analytics data whose shows query came back empty while every bridge and
dimension table is non-empty. -/
def demo_empty_shows : AnalyticsData :=
  ⟨[], [(1, "Ana")], [(1, 10)], [(10, "Beto")], [(1, 20)], [(20, "Perú")],
   [(1, 30)], [(30, "Drama")]⟩

/-! ## Claim theorems -/

/-- Claim C7: for every query and parameter tuple, if executing the query
raises an error then run_query catches it (the error is consumed by the
Except match, never rethrown), emits a non-fatal diagnostic naming the
failed query (the first diagnostic is the literal message followed by the
query text), and returns an empty table with zero rows and zero columns. -/
theorem C7_run_query_error_recovery :
    ∀ (e query : String),
      (run_query (Except.error e) query).1 = emptyDF ∧
      (run_query (Except.error e) query).1.rows.length = 0 ∧
      (run_query (Except.error e) query).1.cols.length = 0 ∧
      (run_query (Except.error e) query).2 =
        ["Error al ejecutar la consulta: " ++ query,
         "Detalles del error: " ++ e] :=
  fun _ _ => ⟨rfl, rfl, rfl, rfl⟩

/-- Claim C9: the Home view's confirmed query groups the shows whose
year_added equals the selected year by type; one summary line is rendered
per type with Movie ↦ Películas and TV Show ↦ Series de TV and any other
type passed through verbatim; an empty grouped count renders the
informational message instead.  On the scenario's fact table, year 2020
yields Movie:1 and TV Show:1 as two summary lines and year 2021 yields the
informational message. -/
theorem C9_home_year_summary :
    query_year_added demo_fact_rows 2020 = [("Movie", 1), ("TV Show", 1)] ∧
    year_added_view demo_fact_rows 2020 =
      HomeRender.success
        "En el año 2020 se añadieron:\n- 1 Películas\n- 1 Series de TV\n" ∧
    query_year_added demo_fact_rows 2021 = [] ∧
    year_added_view demo_fact_rows 2021 =
      HomeRender.info "No se encontraron títulos añadidos en el año 2021." ∧
    (∀ t : String, tipoLabel t =
      if t = "Movie" then "Películas"
      else if t = "TV Show" then "Series de TV" else t) ∧
    (∀ (shows : List FactRow) (y : Int),
      year_added_view shows y =
        if (query_year_added shows y).isEmpty then
          HomeRender.info
            ("No se encontraron títulos añadidos en el año " ++ toString y ++ ".")
        else
          HomeRender.success (year_added_message (query_year_added shows y) y)) := by
  refine ⟨by decide, by decide, by decide, by decide, fun t => rfl, fun shows y => rfl⟩

/-- Claim C1 as stated is false on the code: value_counts() keeps its default
dropna=True, so a row whose type is null is counted in no category.  With one
null-typed row and one Movie row, the chart has a single category of count 1,
so the two rows are not all represented. -/
theorem C1_counterexample :
    type_counts [none, some "Movie"] = [("Movie", 1)] ∧
    ((type_counts [none, some "Movie"]).map Prod.snd).sum = 1 ∧
    [(none : Option String), some "Movie"].length = 2 ∧
    ¬ (((type_counts [none, some "Movie"]).map Prod.snd).sum =
        [(none : Option String), some "Movie"].length) := by
  refine ⟨by decide, by decide, by decide, by decide⟩

/-- Claim C1, amended: the type distribution counts the rows of the fact
table grouped by type with rows whose type is null excluded; each rendered
category is a type value occurring in the data with its exact row count, the
category counts sum to the number of rows with non-null type, and every
non-null type value present appears as a category. -/
theorem C1_type_distribution (types : List (Option String)) :
    ((type_counts types).map Prod.snd).sum = (types.filterMap id).length ∧
    (∀ p ∈ type_counts types,
      p.1 ∈ types.filterMap id ∧ p.2 = (types.filterMap id).count p.1) ∧
    (∀ s : String, some s ∈ types → s ∈ (type_counts types).map Prod.fst) := by
  refine ⟨sum_counts_valueCounts _, fun p hp => mem_valueCounts hp, fun s hs => ?_⟩
  have hmem : s ∈ types.filterMap id := by
    exact List.mem_filterMap.2 ⟨some s, hs, rfl⟩
  have hdedup : s ∈ (types.filterMap id).dedup := List.mem_dedup.2 hmem
  have hcnt : (s, (types.filterMap id).count s) ∈ countsBy (types.filterMap id) :=
    List.mem_map.2 ⟨s, hdedup, rfl⟩
  have hvc : (s, (types.filterMap id).count s) ∈ type_counts types :=
    (List.perm_insertionSort descCount _).mem_iff.2 hcnt
  exact List.mem_map.2 ⟨_, hvc, rfl⟩

/-- Witness for C1_type_distribution at a concrete input: with rows
[Movie, null, Movie] the Movie category has count 2 and is present. -/
theorem C1_type_distribution_witness :
    ("Movie", 2).1 ∈ [some "Movie", none, some "Movie"].filterMap id ∧
    ("Movie", 2).2 =
      ([some "Movie", none, some "Movie"].filterMap id).count ("Movie", 2).1 :=
  (C1_type_distribution [some "Movie", none, some "Movie"]).2.1
    ("Movie", 2) (by decide)

/-- Claim C6: for every input with at least one non-null rating, the rating
distribution drops null ratings, groups the rest by rating with exact counts,
and keeps at most 10 categories ordered by count descending. -/
theorem C6_rating_distribution (ratings : List (Option String))
    (hne : ratings.filterMap id ≠ []) :
    (rating_counts ratings).length ≤ 10 ∧
    List.Pairwise descCount (rating_counts ratings) ∧
    (∀ p ∈ rating_counts ratings,
      p.1 ∈ ratings.filterMap id ∧ p.2 = (ratings.filterMap id).count p.1) ∧
    rating_counts ratings ≠ [] := by
  refine ⟨?_, ?_, ?_, ?_⟩
  · simp only [rating_counts, nlargest, List.length_take]
    omega
  · have hs : List.Sorted descCount
        ((valueCounts (ratings.filterMap id)).insertionSort descCount) :=
      List.sorted_insertionSort descCount _
    exact List.Pairwise.sublist (List.take_sublist _ _) hs
  · intro p hp
    have h1 : p ∈ (valueCounts (ratings.filterMap id)).insertionSort descCount :=
      (List.take_sublist _ _).subset hp
    have h2 : p ∈ valueCounts (ratings.filterMap id) :=
      (List.perm_insertionSort descCount _).mem_iff.1 h1
    exact mem_valueCounts h2
  · simp only [rating_counts, nlargest, ne_eq, List.take_eq_nil_iff]
    push_neg
    refine ⟨by omega, ?_⟩
    intro hnil
    have : valueCounts (ratings.filterMap id) = [] := by
      have := List.perm_insertionSort descCount (valueCounts (ratings.filterMap id))
      rw [hnil] at this
      exact this.symm.eq_nil
    have hd : (ratings.filterMap id).dedup = [] := by
      have hk := keys_countsBy (ratings.filterMap id)
      have : countsBy (ratings.filterMap id) = [] := by
        have hp := List.perm_insertionSort descCount (countsBy (ratings.filterMap id))
        rw [valueCounts] at this
        rw [this] at hp
        exact hp.symm.eq_nil
      rw [this] at hk
      exact hk.symm
    exact hne ((List.dedup_eq_nil _).1 hd)

/-- Witness for C6_rating_distribution: one non-null rating present. -/
theorem C6_rating_distribution_witness :
    [some "PG", none, some "PG"].filterMap id ≠ [] ∧
    (rating_counts [some "PG", none, some "PG"]).length ≤ 10 :=
  ⟨by decide, (C6_rating_distribution [some "PG", none, some "PG"] (by decide)).1⟩

theorem nodup_keys_valueCounts {α : Type} [DecidableEq α] (xs : List α) :
    ((valueCounts xs).map Prod.fst).Nodup := by
  have hp : (valueCounts xs).Perm (countsBy xs) :=
    List.perm_insertionSort descCount (countsBy xs)
  exact ((hp.map Prod.fst).nodup_iff).2 (nodup_keys_countsBy xs)

/-- Claim C4: with at least one non-null release_year, the releases-by-year
aggregation drops nulls, counts rows grouped by year, sorts strictly
ascending by year (one row per distinct year), and tail(30) keeps exactly the
last min(30, number of distinct years) rows — every dropped year is smaller
than every kept year. -/
theorem C4_release_years (ys : List (Option Int)) (hne : ys.filterMap id ≠ []) :
    List.Pairwise (fun p q : Int × Nat => p.1 < q.1) (release_year_counts ys) ∧
    (release_year_counts ys).length = (ys.filterMap id).dedup.length ∧
    (latest_years_count ys).length = min 30 (ys.filterMap id).dedup.length ∧
    List.Pairwise (fun p q : Int × Nat => p.1 < q.1) (latest_years_count ys) ∧
    (∀ p ∈ latest_years_count ys,
      p.1 ∈ ys.filterMap id ∧ p.2 = (ys.filterMap id).count p.1) ∧
    (∀ v ∈ ys.filterMap id, ∃ c, (v, c) ∈ release_year_counts ys) ∧
    (∀ p ∈ (release_year_counts ys).take ((release_year_counts ys).length - 30),
      ∀ q ∈ latest_years_count ys, p.1 < q.1) ∧
    latest_years_count ys ≠ [] := by
  have hperm1 : (release_year_counts ys).Perm (valueCounts (ys.filterMap id)) :=
    List.perm_insertionSort yearLE _
  have hperm2 : (release_year_counts ys).Perm (countsBy (ys.filterMap id)) :=
    hperm1.trans (List.perm_insertionSort descCount _)
  have hkeys : ((release_year_counts ys).map Prod.fst).Nodup :=
    ((hperm1.map Prod.fst).nodup_iff).2 (nodup_keys_valueCounts _)
  have hsorted : List.Pairwise yearLE (release_year_counts ys) :=
    List.sorted_insertionSort yearLE _
  have hne_keys : List.Pairwise (fun p q : Int × Nat => p.1 ≠ q.1)
      (release_year_counts ys) := List.pairwise_map.1 hkeys
  have hlt : List.Pairwise (fun p q : Int × Nat => p.1 < q.1)
      (release_year_counts ys) :=
    (hsorted.and hne_keys).imp (fun h => lt_of_le_of_ne h.1 h.2)
  have hlen : (release_year_counts ys).length = (ys.filterMap id).dedup.length := by
    rw [hperm2.length_eq, countsBy, List.length_map]
  have hmemfull : ∀ p ∈ release_year_counts ys,
      p.1 ∈ ys.filterMap id ∧ p.2 = (ys.filterMap id).count p.1 :=
    fun p hp => mem_valueCounts (hperm1.subset hp)
  have hdpos : 0 < (ys.filterMap id).dedup.length := by
    rcases List.exists_mem_of_ne_nil _ hne with ⟨v, hv⟩
    exact List.length_pos.2
      (fun h0 => (List.not_mem_nil v) (h0 ▸ List.mem_dedup.2 hv))
  refine ⟨hlt, hlen, ?_, ?_, ?_, ?_, ?_, ?_⟩
  · simp only [latest_years_count, tailN, List.length_drop, hlen]
    omega
  · exact List.Pairwise.sublist (List.drop_sublist _ _) hlt
  · intro p hp
    exact hmemfull p (List.mem_of_mem_drop hp)
  · intro v hv
    refine ⟨(ys.filterMap id).count v, hperm2.mem_iff.2 ?_⟩
    exact List.mem_map.2 ⟨v, List.mem_dedup.2 hv, rfl⟩
  · intro p hp q hq
    have hsplit := List.take_append_drop
      ((release_year_counts ys).length - 30) (release_year_counts ys)
    have hcross := (List.pairwise_append.1 (by rw [hsplit]; exact hlt)).2.2
    exact hcross p hp q hq
  · have h30 : (latest_years_count ys).length =
        min 30 (ys.filterMap id).dedup.length := by
      simp only [latest_years_count, tailN, List.length_drop, hlen]
      omega
    intro hnil
    rw [hnil] at h30
    simp only [List.length_nil] at h30
    omega

/-- Witness for C4_release_years: the 35-distinct-years scenario keeps
exactly min(30, 35) = 30 rows. -/
theorem C4_release_years_witness :
    demo_years.filterMap id ≠ [] ∧
    (latest_years_count demo_years).length =
      min 30 (demo_years.filterMap id).dedup.length :=
  ⟨by decide, (C4_release_years demo_years (by decide)).2.2.1⟩

/-- Claim C3: for every input, the month-added aggregation yields exactly 12
categories, one per fixed three-letter month abbreviation in canonical
calendar order, and each category's count is the number of (non-null,
in-range) month_added entries mapping to it — months absent from the data
appear with count 0. -/
theorem C3_month_distribution (months : List (Option Int)) :
    month_added_counts months =
      month_names.map
        (fun nm => (nm, ((months.filterMap id).filterMap month_map).count nm)) ∧
    (month_added_counts months).length = 12 ∧
    (month_added_counts months).map Prod.fst = month_names := by
  have hmerged :
      month_names.map
        (fun nm => (nm,
          ((valueCounts ((months.filterMap id).filterMap month_map)).lookup nm).getD 0)) =
      month_names.map
        (fun nm => (nm, ((months.filterMap id).filterMap month_map).count nm)) := by
    apply List.map_congr_left
    intro nm _
    rw [lookup_valueCounts]
    by_cases h : nm ∈ (months.filterMap id).filterMap month_map
    · simp [h]
    · simp [h, List.count_eq_zero.2 h]
  have hsorted : List.Pairwise monthLE
      (month_names.map
        (fun nm => (nm, ((months.filterMap id).filterMap month_map).count nm))) := by
    rw [List.pairwise_map]
    have : ∀ a b : String, monthLE (a, ((months.filterMap id).filterMap month_map).count a)
        (b, ((months.filterMap id).filterMap month_map).count b) ↔
        month_order a ≤ month_order b := fun a b => Iff.rfl
    simp only [this]
    decide
  have hmain : month_added_counts months =
      month_names.map
        (fun nm => (nm, ((months.filterMap id).filterMap month_map).count nm)) := by
    show (month_names.map
        (fun nm => (nm,
          ((valueCounts ((months.filterMap id).filterMap month_map)).lookup nm).getD 0))).insertionSort monthLE = _
    rw [hmerged]
    exact List.Sorted.insertionSort_eq hsorted
  refine ⟨hmain, ?_, ?_⟩
  · rw [hmain, List.length_map]
    rfl
  · rw [hmain, List.map_map]
    exact List.map_id _

/-- Claim C5: after the inner join of shows with directors, every joined row
whose director_name lower-cases to "unknown" is removed before grouping, so
no category of the top-10 director chart lower-cases to "unknown". -/
theorem C5_top_directors (shows : List ShowRow) (directors : List (Int × String)) :
    (∀ nm ∈ df_filtered_directors shows directors,
      lowerStr nm ≠ "unknown".toList) ∧
    (∀ p ∈ director_counts shows directors,
      lowerStr p.1 ≠ "unknown".toList) := by
  have hfil : ∀ nm ∈ df_filtered_directors shows directors,
      lowerStr nm ≠ "unknown".toList := by
    intro nm hnm
    have hmem := List.of_mem_filter hnm
    simpa using hmem
  refine ⟨hfil, fun p hp => ?_⟩
  have h1 : p ∈ valueCounts (df_filtered_directors shows directors) :=
    (List.perm_insertionSort descCount _).mem_iff.1
      ((List.take_sublist _ _).subset hp)
  exact hfil p.1 (mem_valueCounts h1).1

/-- Witness for C5_top_directors: with director names Unknown, unknown,
UNKNOWN and Ana across rows, the top-directors table is exactly [(Ana, 1)]. -/
theorem C5_top_directors_witness :
    director_counts demo_shows demo_directors = [("Ana", 1)] ∧
    lowerStr "Ana" ≠ "unknown".toList :=
  ⟨by decide,
   (C5_top_directors demo_shows demo_directors).2 ("Ana", 1) (by decide)⟩

theorem filter_key_eq_lookup_toList {dim : List (Int × String)}
    (hk : (dim.map Prod.fst).Nodup) (k : Int) :
    (dim.filter (fun p => p.1 == k)).map Prod.snd = (dim.lookup k).toList := by
  induction dim with
  | nil => rfl
  | cons hd tl ih =>
    obtain ⟨k2, v⟩ := hd
    by_cases hkk : k2 = k
    · subst hkk
      have hnotin : k2 ∉ tl.map Prod.fst := (List.nodup_cons.1 hk).1
      have htl : tl.filter (fun p => p.1 == k2) = [] := by
        apply List.filter_eq_nil_iff.2
        intro p hp
        simp only [beq_iff_eq]
        intro hEq
        exact hnotin (List.mem_map.2 ⟨p, hp, hEq⟩)
      simp [List.filter_cons, htl, List.lookup_cons]
    · have hbeq : (k2 == k) = false := beq_eq_false_iff_ne.mpr hkk
      have hbeq2 : (k == k2) = false := beq_eq_false_iff_ne.mpr (Ne.symm hkk)
      simp [List.filter_cons, hbeq, List.lookup_cons, hbeq2,
        ih (List.nodup_cons.1 hk).2]

theorem count_joined_names (bridge : List (Int × Int)) (dim : List (Int × String))
    (hk : (dim.map Prod.fst).Nodup) (nm : String) :
    (joined_names bridge dim).count nm =
      (bridge.filter (fun b => dim.lookup b.2 == some nm)).length := by
  induction bridge with
  | nil => rfl
  | cons b tl ih =>
    have hhead : joined_names (b :: tl) dim =
        ((dim.filter (fun p => p.1 == b.2)).map Prod.snd) ++ joined_names tl dim := by
      simp [joined_names]
    rw [hhead, List.count_append, ih, filter_key_eq_lookup_toList hk b.2,
      List.filter_cons]
    cases hl : dim.lookup b.2 with
    | none => simp
    | some v =>
      by_cases hv : v = nm
      · subst hv
        simp [List.count_cons, Nat.add_comm]
      · have hb1 : (v == nm) = false := beq_eq_false_iff_ne.mpr hv
        have hb2 : (some v == some nm) = false := by
          simpa using hv
        simp [List.count_cons, hb1, hb2]

/-- Claim C10: the cast, country and genre aggregations count the rows of the
inner join of their bridge table with their dimension table: with distinct
dimension ids, each bridge row contributes exactly 1 to the count of the name
its dimension_id resolves to (duplicate bridge rows counted again), and a
bridge row whose dimension_id has no dimension match contributes nothing. -/
theorem C10_bridge_counts (bridge : List (Int × Int)) (dim : List (Int × String))
    (hk : (dim.map Prod.fst).Nodup) :
    (∀ nm : String, (joined_names bridge dim).count nm =
      (bridge.filter (fun b => dim.lookup b.2 == some nm)).length) ∧
    (∀ p ∈ valueCounts (joined_names bridge dim),
      p.2 = (bridge.filter (fun b => dim.lookup b.2 == some p.1)).length) ∧
    cast_counts bridge dim = nlargest 10 (valueCounts (joined_names bridge dim)) ∧
    country_counts bridge dim = nlargest 10 (valueCounts (joined_names bridge dim)) ∧
    genre_counts bridge dim = nlargest 10 (valueCounts (joined_names bridge dim)) := by
  refine ⟨count_joined_names bridge dim hk, ?_, rfl, rfl, rfl⟩
  intro p hp
  rw [(mem_valueCounts hp).2, count_joined_names bridge dim hk]

/-- Witness for C10_bridge_counts: two bridge rows for id 10 both count
toward "Ana" and the dangling id 99 contributes nothing. -/
theorem C10_bridge_counts_witness :
    (([(10, "Ana"), (20, "Bob")] : List (Int × String)).map Prod.fst).Nodup ∧
    joined_names ([(1, 10), (2, 10), (3, 99)] : List (Int × Int))
      ([(10, "Ana"), (20, "Bob")] : List (Int × String)) = ["Ana", "Ana"] ∧
    (joined_names ([(1, 10), (2, 10), (3, 99)] : List (Int × Int))
        ([(10, "Ana"), (20, "Bob")] : List (Int × String))).count "Ana" =
      (([(1, 10), (2, 10), (3, 99)] : List (Int × Int)).filter
        (fun b => ([(10, "Ana"), (20, "Bob")] : List (Int × String)).lookup b.2 ==
          some "Ana")).length :=
  ⟨by decide, by decide, (C10_bridge_counts _ _ (by decide)).1 "Ana"⟩

theorem ne_ite_of_ne {α : Type} {c : Prop} [Decidable c] {a b x : α}
    (ha : x ≠ a) (hb : x ≠ b) : x ≠ (if c then a else b) := by
  by_cases hc : c
  · rw [if_pos hc]; exact ha
  · rw [if_neg hc]; exact hb

/-- Claim C2 as stated is false on the code: the whole eight-aggregation
block is guarded by the single emptiness check on the shows query result, so
when shows is empty the cast, country and genre aggregations are not
rendered even though their own bridge and dimension data are non-empty; only
the one shows warning appears. -/
theorem C2_counterexample :
    analytics_view demo_empty_shows = [RenderItem.placeholder "shows"] ∧
    demo_empty_shows.show_cast ≠ [] ∧
    demo_empty_shows.cast_members ≠ [] ∧
    demo_empty_shows.show_countries ≠ [] ∧
    demo_empty_shows.countries ≠ [] ∧
    demo_empty_shows.show_genres ≠ [] ∧
    demo_empty_shows.genres ≠ [] ∧
    RenderItem.chart "cast" ∉ analytics_view demo_empty_shows ∧
    RenderItem.chart "countries" ∉ analytics_view demo_empty_shows ∧
    RenderItem.chart "genres" ∉ analytics_view demo_empty_shows := by
  refine ⟨by decide, by decide, by decide, by decide, by decide, by decide,
    by decide, by decide, by decide, by decide⟩

/-- Claim C2, amended: when the shows query result is non-empty, the view
renders exactly eight slots, each slot holding a chart or an informational
placeholder determined only by its own aggregation's data — so failure or
emptiness of one aggregation's data never blanks another.  When the shows
result is empty, the entire analytics block (including the cast, country and
genre aggregations) is replaced by the single shows warning. -/
theorem C2_analytics_view_guards (d : AnalyticsData) (hne : d.shows ≠ []) :
    (analytics_view d).length = 8 ∧
    (analytics_view d).head? = some (RenderItem.chart "type") ∧
    ((analytics_view d)[2]? =
      some (if (d.shows.filterMap ShowRow.rating).isEmpty then
        RenderItem.placeholder "rating" else RenderItem.chart "rating")) ∧
    ((analytics_view d)[5]? =
      some (if d.show_cast.isEmpty || d.cast_members.isEmpty then
        RenderItem.placeholder "cast" else RenderItem.chart "cast")) ∧
    ((analytics_view d)[6]? =
      some (if d.show_countries.isEmpty || d.countries.isEmpty then
        RenderItem.placeholder "countries" else RenderItem.chart "countries")) ∧
    ((analytics_view d)[7]? =
      some (if d.show_genres.isEmpty || d.genres.isEmpty then
        RenderItem.placeholder "genres" else RenderItem.chart "genres")) ∧
    (RenderItem.chart "cast" ∈ analytics_view d ↔
      d.show_cast ≠ [] ∧ d.cast_members ≠ []) := by
  have hE : d.shows.isEmpty = false := by
    cases hs : d.shows with
    | nil => exact absurd hs hne
    | cons a l => rfl
  have hlist : analytics_view d =
      [RenderItem.chart "type",
       (if (d.shows.filterMap ShowRow.release_year).isEmpty then
          RenderItem.placeholder "release_year"
        else RenderItem.chart "release_year"),
       (if (d.shows.filterMap ShowRow.rating).isEmpty then
          RenderItem.placeholder "rating"
        else RenderItem.chart "rating"),
       (if (d.shows.filterMap ShowRow.month_added).isEmpty then
          RenderItem.placeholder "month_added"
        else RenderItem.chart "month_added"),
       (if d.directors.isEmpty then RenderItem.placeholder "directors"
        else if (df_filtered_directors d.shows d.directors).isEmpty then
          RenderItem.placeholder "directors"
        else RenderItem.chart "directors"),
       (if d.show_cast.isEmpty || d.cast_members.isEmpty then
          RenderItem.placeholder "cast"
        else RenderItem.chart "cast"),
       (if d.show_countries.isEmpty || d.countries.isEmpty then
          RenderItem.placeholder "countries"
        else RenderItem.chart "countries"),
       (if d.show_genres.isEmpty || d.genres.isEmpty then
          RenderItem.placeholder "genres"
        else RenderItem.chart "genres")] := by
    rw [analytics_view, hE]
    rfl
  refine ⟨by rw [hlist]; rfl, by rw [hlist]; rfl, by rw [hlist]; rfl,
    by rw [hlist]; rfl, by rw [hlist]; rfl, by rw [hlist]; rfl, ?_⟩
  rw [hlist]
  constructor
  · intro hmem
    simp only [List.mem_cons, List.not_mem_nil, or_false] at hmem
    rcases hmem with h | h | h | h | h | h | h | h
    · exact absurd h (by decide)
    · exact absurd h (ne_ite_of_ne (by decide) (by decide))
    · exact absurd h (ne_ite_of_ne (by decide) (by decide))
    · exact absurd h (ne_ite_of_ne (by decide) (by decide))
    · exact absurd h
        (ne_ite_of_ne (by decide) (ne_ite_of_ne (by decide) (by decide)))
    · by_cases hc : d.show_cast.isEmpty || d.cast_members.isEmpty
      · rw [if_pos hc] at h
        exact absurd h (by decide)
      · constructor
        · cases hs : d.show_cast with
          | nil => rw [hs] at hc; simp at hc
          | cons a l => exact List.cons_ne_nil a l
        · cases hs : d.cast_members with
          | nil => rw [hs] at hc; simp at hc
          | cons a l => exact List.cons_ne_nil a l
    · exact absurd h (ne_ite_of_ne (by decide) (by decide))
    · exact absurd h (ne_ite_of_ne (by decide) (by decide))
  · rintro ⟨h1, h2⟩
    have hc : (d.show_cast.isEmpty || d.cast_members.isEmpty) = false := by
      cases hs1 : d.show_cast with
      | nil => exact absurd hs1 h1
      | cons a l =>
        cases hs2 : d.cast_members with
        | nil => exact absurd hs2 h2
        | cons b m => rfl
    refine List.mem_cons.2 (Or.inr ?_)
    refine List.mem_cons.2 (Or.inr ?_)
    refine List.mem_cons.2 (Or.inr ?_)
    refine List.mem_cons.2 (Or.inr ?_)
    refine List.mem_cons.2 (Or.inr ?_)
    refine List.mem_cons.2 (Or.inl ?_)
    rw [hc]
    rfl

/-- Witness for C2_analytics_view_guards at a concrete non-empty state. -/
theorem C2_analytics_view_guards_witness :
    (analytics_view
      ⟨[⟨1, some "Movie", "A", none, none, none, none, none⟩],
       [], [], [], [], [], [], []⟩).length = 8 :=
  (C2_analytics_view_guards
    ⟨[⟨1, some "Movie", "A", none, none, none, none, none⟩],
     [], [], [], [], [], [], []⟩ (by decide)).1


/-! ### LIKE pattern matching lemmas (Search View, claim C8) -/

theorem likeMatch_pct (ps s : List Char) :
    likeMatch ('%' :: ps) s = s.tails.any (fun t => likeMatch ps t) := by
  rw [likeMatch.eq_def]
  simp

theorem likeMatch_lit (c : Char) (ps s : List Char)
    (h1 : c ≠ '%') (h2 : c ≠ '\\') (h3 : c ≠ '_') :
    likeMatch (c :: ps) s =
      (match s with
       | [] => false
       | d :: s2 => c == d && likeMatch ps s2) := by
  rw [likeMatch.eq_def]
  simp only [if_neg h1, if_neg h2, if_neg h3]
  cases s <;> rfl

/-- A leading % matches exactly when some suffix matches the rest. -/
theorem likeMatch_pct_iff (ps s : List Char) :
    likeMatch ('%' :: ps) s = true ↔ ∃ t, t <:+ s ∧ likeMatch ps t = true := by
  rw [likeMatch_pct, List.any_eq_true]
  constructor
  · rintro ⟨t, ht, htt⟩
    exact ⟨t, (List.mem_tails t s).1 ht, htt⟩
  · rintro ⟨t, ht, htt⟩
    exact ⟨t, (List.mem_tails t s).2 ht, htt⟩

/-- A metacharacter-free fragment followed by % matches the strings it
prefixes. -/
theorem likeMatch_lit_pct (lit : List Char) (h : isLit lit) (s : List Char) :
    likeMatch (lit ++ ['%']) s = true ↔ lit <+: s := by
  induction lit generalizing s with
  | nil =>
    simp only [List.nil_append]
    rw [likeMatch_pct_iff]
    constructor
    · intro _; exact List.nil_prefix
    · intro _
      exact ⟨[], List.nil_suffix, by decide⟩
  | cons c lit ih =>
    have hc := h c (List.mem_cons_self c lit)
    have hlit : isLit lit := fun x hx => h x (List.mem_cons_of_mem c hx)
    rw [List.cons_append, likeMatch_lit c (lit ++ ['%']) s hc.1 hc.2.1 hc.2.2]
    cases s with
    | nil => simp
    | cons d s2 =>
      rw [List.cons_prefix_cons]
      simp only [Bool.and_eq_true, beq_iff_eq]
      rw [ih hlit s2]

/-- The wildcard-wrapped pattern of a metacharacter-free term matches exactly
the strings containing the term as a contiguous fragment. -/
theorem likeMatch_wrap_iff (lit s : List Char) (h : isLit lit) :
    likeMatch ('%' :: (lit ++ ['%'])) s = true ↔ lit <:+: s := by
  rw [likeMatch_pct_iff, List.infix_iff_prefix_suffix]
  constructor
  · rintro ⟨t, hts, hm⟩
    exact ⟨t, (likeMatch_lit_pct lit h t).1 hm, hts⟩
  · rintro ⟨t, hpre, hts⟩
    exact ⟨t, hts, (likeMatch_lit_pct lit h t).2 hpre⟩

/-- toLower maps nothing new onto a character below code 97 ('a'). -/
theorem toLower_eq_low {c m : Char} (hm : m.toNat < 97) (h : c.toLower = m) :
    c = m := by
  simp only [Char.toLower] at h
  split at h
  · exfalso
    have h2 := congrArg Char.toNat h
    have hv : (Char.ofNat (c.toNat + 32)).toNat = c.toNat + 32 := by
      unfold Char.ofNat
      split
      · rfl
      · simp [Char.toNat, Char.ofNatAux] at *
        omega
    rw [hv] at h2
    omega
  · exact h

theorem toLower_preserves_isLit {cs : List Char} (h : isLit cs) :
    isLit (cs.map Char.toLower) := by
  intro c hc
  rcases List.mem_map.1 hc with ⟨c0, hc0, rfl⟩
  have h0 := h c0 hc0
  exact ⟨fun he => h0.1 (toLower_eq_low (by decide) he),
    fun he => h0.2.1 (toLower_eq_low (by decide) he),
    fun he => h0.2.2 (toLower_eq_low (by decide) he)⟩

/-- Claim C8 as stated is false on the code: a search term containing a LIKE
wildcard is interpreted as a pattern, not as a literal substring.  Searching
for "a%b" returns the title "axb" even though "a%b" is not a substring of
"axb" under any casing — so the result is not exactly the substring
matches.  (Parameter binding does prevent the term from altering the SQL
text itself; what leaks through is only LIKE pattern syntax.) -/
theorem C8_counterexample :
    query_search ["axb"] "a%b" = ["axb"] ∧
    ¬ (("a%b".toList.map Char.toLower) <:+: ("axb".toList.map Char.toLower)) ∧
    ¬ ("a%b".toList <:+: "axb".toList) := by
  refine ⟨by decide, by decide, by decide⟩

/-- Claim C8, amended: for every search term containing no LIKE
metacharacter (%, _ or the escape backslash), the Search View returns
exactly the rows whose title contains the term as a case-insensitive
substring, and no others; the term only ever reaches the engine as the
bound ILIKE parameter, so it can alter at most the pattern being matched,
never the query's SQL. -/
theorem C8_search_semantics (titles : List String) (term : String)
    (h : isLit term.toList) :
    ∀ t : String, t ∈ query_search titles term ↔
      t ∈ titles ∧
        (term.toList.map Char.toLower) <:+: (t.toList.map Char.toLower) := by
  intro t
  rw [query_search, List.mem_filter]
  apply and_congr Iff.rfl
  have hpat : ('%' :: term.toList ++ ['%']).map Char.toLower =
      '%' :: ((term.toList.map Char.toLower) ++ ['%']) := by
    simp [List.map_append]
  rw [show ilike t.toList ('%' :: term.toList ++ ['%']) =
      likeMatch ('%' :: ((term.toList.map Char.toLower) ++ ['%']))
        (t.toList.map Char.toLower) from by rw [ilike, hpat]]
  exact likeMatch_wrap_iff _ _ (toLower_preserves_isLit h)

/-- Witness for C8_search_semantics: the metacharacter-free term "ark" finds
the title "Dark" case-insensitively. -/
theorem C8_search_semantics_witness :
    isLit "ark".toList ∧
    ("Dark" ∈ query_search ["Dark", "Bright"] "ark" ↔
      "Dark" ∈ ["Dark", "Bright"] ∧
        ("ark".toList.map Char.toLower) <:+: ("Dark".toList.map Char.toLower)) :=
  ⟨by decide, C8_search_semantics ["Dark", "Bright"] "ark" (by decide) "Dark"⟩

end Dashboard
